import Mathlib

/-!
Verification of the export-side data mapping pipeline of the
powerfactory-tools repository against its natural-language specification.

The repository slice at hand ships the project documentation (README with
the export remarks, CHANGELOG), the exported example grid data
(`examples/grids/Industry_Park/Industry_Park_MV_2_Bus_topology.json` and the
steadystate-case document bundled with it), and the tutorial notebooks; the
Python exporter modules themselves are not part of the slice.  Where a claim
is decided by exporter code that is absent, the corresponding definition is
modelled from the specification text (marked `Modelled from the spec:` in
its doc comment).  Where a claim is decided by the exported example data
that IS present, that data is embedded verbatim and is authoritative.
-/

namespace PFTools

/-! ## Pseudo-float values

The exported JSON carries IEEE floats including a literal `NaN` token
(see the steadystate-case document, field `cos_phi_set.average`).  For the
shallow embedding a float value is either an ordinary rational or the
not-a-number sentinel. -/

inductive FloatVal where
  | nan : FloatVal
  | val : ℚ → FloatVal
  deriving DecidableEq, Repr

/-! ## Load categories and the load-model resolver (C1) -/

/-- The load categories distinguished by the exporter: `ElmLod` (general),
`ElmLodmv` (medium voltage), `ElmLodlv` (low voltage), `ElmLodlvp`
(partial low voltage). -/
inductive LoadCategory where
  | general : LoadCategory
  | mv : LoadCategory
  | lv : LoadCategory
  | lvp : LoadCategory
  deriving DecidableEq, Repr

/-- ZIP load-model kinds: constant impedance (Z), constant current (I),
constant power (P). -/
inductive LoadModelKind where
  | constImpedance : LoadModelKind
  | constCurrent : LoadModelKind
  | constPower : LoadModelKind
  deriving DecidableEq, Repr

/-- Modelled from the spec: the Load-Model Resolver's defaulting table
(README "Remarks on export of loads": general loads default to
const. impedance, medium-voltage loads to const. power, low-voltage and
partial low-voltage loads to const. current).  The resolver code
(`exporter/exporter.py`) is not part of the source slice. -/
def defaultLoadModel : LoadCategory → LoadModelKind
  | .general => .constImpedance
  | .mv => .constPower
  | .lv => .constCurrent
  | .lvp => .constCurrent

/-- Modelled from the spec: a load's explicit load-model override (when the
PowerFactory load type carries one) takes precedence; otherwise the
per-category default applies. -/
def resolveLoadModel (cat : LoadCategory) (override : Option LoadModelKind) :
    LoadModelKind :=
  match override with
  | some m => m
  | none => defaultLoadModel cat

/-! ## Rated-power resolution for zero-power consumer loads (C2) -/

/-- System type of a load as exported (`system_type`). -/
inductive LoadSystemType where
  | consumer : LoadSystemType
  | producer : LoadSystemType
  deriving DecidableEq, Repr

/-- A load's power setpoint data as read from the load-flow mask. -/
structure LoadSetpoint where
  connected : Bool
  systemType : LoadSystemType
  activePower : ℚ
  reactivePower : ℚ
  deriving DecidableEq, Repr

/-- Modelled from the spec: `LoadPower.as_rated_power` (README "Remarks on
export of loads": connected consumer loads with an active and reactive
power of zero lead to a `RatedPower` of `NaN`).  The rated apparent power of
a nonzero setpoint is carried here by its square `p² + q²`; the exact
magnitude is irrelevant to the claims, only that it is an ordinary number.
The field is always emitted, never omitted, hence the `some`. -/
def as_rated_power (l : LoadSetpoint) : Option FloatVal :=
  if l.activePower = 0 ∧ l.reactivePower = 0 then
    some FloatVal.nan
  else
    some (FloatVal.val (l.activePower ^ 2 + l.reactivePower ^ 2))

/-! ## Transformer parameter translation (C3) -/

/-- The winding side on which the source record specifies its impedance
data. -/
inductive WindingSide where
  | hv : WindingSide
  | lv : WindingSide
  deriving DecidableEq, Repr

/-- A 2-winding transformer source record as read from PowerFactory: rated
voltages of the two windings and the short-circuit impedance, specified on
one of the two sides (`specSide`). -/
structure Transformer2wSource where
  uRatedHV : ℚ
  uRatedLV : ℚ
  specSide : WindingSide
  rSpec : ℚ
  xSpec : ℚ
  deriving DecidableEq, Repr

/-- Modelled from the spec: refer an impedance value specified on
`s.specSide` to the high-voltage winding (README "Remarks on export of
transformer": the impedances of all winding objects are referred to the
high voltage side of the transformer).  An impedance specified on the LV
side is scaled by the square of the voltage ratio. -/
def referToHV (s : Transformer2wSource) (z : ℚ) : ℚ :=
  match s.specSide with
  | .hv => z
  | .lv => z * (s.uRatedHV / s.uRatedLV) ^ 2

/-- The per-winding impedance entries of the exported transformer record
(positive-sequence resistance and reactance of each of the two winding
objects, all referred to the HV side). -/
structure Transformer2wWindings where
  w1r : ℚ
  w1x : ℚ
  w2r : ℚ
  w2x : ℚ
  deriving DecidableEq, Repr

/-- Modelled from the spec: the Transformer Parameter Translator for
2-winding transformers.  The total short-circuit impedance, referred to the
HV side, is split evenly between the two winding objects; in the exported
Industry_Park example both winding objects indeed carry the identical
HV-referred values (r1 = 0.5671875 Ω, x1 = 18.1411354 Ω on the 110 kV and
the 20 kV winding alike). -/
def translate2w (s : Transformer2wSource) : Transformer2wWindings :=
  { w1r := referToHV s s.rSpec / 2
    w1x := referToHV s s.xSpec / 2
    w2r := referToHV s s.rSpec / 2
    w2x := referToHV s s.xSpec / 2 }

/-! ## Zero-sequence data of transformers (C4) -/

/-- Vector-group designator of the high-voltage (primary) winding. -/
inductive PrimaryVG where
  | yn : PrimaryVG
  | y : PrimaryVG
  | d : PrimaryVG
  deriving DecidableEq, Repr

/-- The vector-group families the zero-sequence magnetizing lookup is keyed
on: grounded wye, delta, non-grounded wye. -/
inductive VGFamily where
  | groundedWye : VGFamily
  | delta : VGFamily
  | nonGroundedWye : VGFamily
  deriving DecidableEq, Repr

/-- Classification of a primary winding vector group into its family. -/
def familyOf : PrimaryVG → VGFamily
  | .yn => .groundedWye
  | .y => .nonGroundedWye
  | .d => .delta

/-- Modelled from the spec: the fixed per-vector-group-family factor taken
by the zero-sequence magnetizing-reactance lookup (README "Remarks on
export of transformer": the zero sequence magnetising impedances are
dependent on the wiring group).  The spec documents the table's existence
and its key (the family), not its numeric entries; the values below are
placeholders standing for the three fixed table rows. -/
def zeroSeqMagFactor : VGFamily → ℚ
  | .groundedWye => 1
  | .delta => 10
  | .nonGroundedWye => 100

/-- Earthing (grounding) data that may or may not be present on the source
element. -/
structure EarthingData where
  re : ℚ
  xe : ℚ
  deriving DecidableEq, Repr

/-- A transformer's zero-sequence-relevant source data: primary vector
group, positive-sequence magnetizing reactance, and optional earthing
data. -/
structure TransformerZeroSeqSource where
  primaryVG : PrimaryVG
  x_h1 : ℚ
  earthing : Option EarthingData
  deriving DecidableEq, Repr

/-- Modelled from the spec: the zero-sequence magnetizing reactance is
computed from the positive-sequence one via the fixed per-family factor. -/
def compute_x_h0 (t : TransformerZeroSeqSource) : ℚ :=
  zeroSeqMagFactor (familyOf t.primaryVG) * t.x_h1

/-- Modelled from the spec: the exported zero-sequence earthing impedance
fields `(re, xe)`.  When the source element carries no earthing data they
are emitted as `none` (JSON null), never as zero (the exported
Industry_Park example shows `re`/`xe` null on the ungrounded 110 kV `Y`
winding and `0.0` on the grounded 20 kV `YN` winding). -/
def earthingExport (t : TransformerZeroSeqSource) : Option ℚ × Option ℚ :=
  match t.earthing with
  | none => (none, none)
  | some e => (some e.re, some e.xe)

/-! ## Plausibility check between Topology and TopologyCase (C5, C8) -/

/-- A descriptive plausibility-check failure: it records which element is
not covered and a human-readable message naming that element. -/
structure CheckFailure where
  missing : String
  message : String
  deriving DecidableEq, Repr

/-- Builds the descriptive failure for an element present on one side of
the Topology/TopologyCase pair but not on the other; the message names the
element. -/
def mkCheckFailure (m : String) : CheckFailure :=
  { missing := m
    message := "Topology case does not match specified topology: element "
      ++ m ++ " is not covered" }

/-- Modelled from the spec: the Plausibility Checker's `check`.  It
verifies element-id-set equality between the Topology and the
TopologyCase; on mismatch it returns a descriptive `CheckFailure` naming
the first element found on one side only (README "Remarks on export of the
TopologyCase": the error "Topology case does not match specified topology"
is thrown within the plausibility check). -/
def check (topoIds caseIds : List String) : Except CheckFailure Unit :=
  match topoIds.find? (fun e => !(caseIds.contains e)) with
  | some m => .error (mkCheckFailure m)
  | none =>
    match caseIds.find? (fun e => !(topoIds.contains e)) with
    | some m => .error (mkCheckFailure m)
    | none => .ok ()

/-- The default of the exporter's `plausibility_check` parameter: the check
is on unless the caller explicitly opts out. -/
def defaultPlausibilityCheck : Bool := true

/-- Modelled from the spec: emission of one study case's files given the
Topology's and the TopologyCase's element ids.  With the plausibility check
enabled (the default) a `CheckFailure` aborts the emission; the caller can
only get past a failing check by passing `plausibility_check := False` at
the export call. -/
def emitCase (topoIds caseIds : List String) (plausibilityCheck : Bool) :
    Except CheckFailure (List String × List String) :=
  if plausibilityCheck then
    match check topoIds caseIds with
    | .error f => .error f
    | .ok _ => .ok (topoIds, caseIds)
  else
    .ok (topoIds, caseIds)

/-! ## Unsupported elements in the export run (C8) -/

/-- The PowerFactory element classes relevant here: the supported kinds
listed in the README plus `ElmVsc`, the README's example of a class the
exporter does not support. -/
inductive ElementClass where
  | elmLne : ElementClass
  | elmTerm : ElementClass
  | elmCoup : ElementClass
  | elmTr2 : ElementClass
  | elmLod : ElementClass
  | elmXnet : ElementClass
  | elmVsc : ElementClass
  deriving DecidableEq, Repr

/-- Whether the exporter supports an element class (README "The following
type of elements are supported so far"; `ElmVsc` is not in the list). -/
def supportedClass : ElementClass → Bool
  | .elmVsc => false
  | _ => true

/-- A grid element as seen by the exporter: name, class, and whether its
only tie to the rest of the grid is through an open switch. -/
structure GridElement where
  name : String
  eclass : ElementClass
  behindOpenSwitch : Bool
  deriving DecidableEq, Repr

/-- Modelled from the spec: element ids entering the Topology — the
supported elements only; unsupported ones are skipped. -/
def topoElementIds (elems : List GridElement) : List String :=
  (elems.filter (fun e => supportedClass e.eclass)).map (fun e => e.name)

/-- Modelled from the spec: the warnings of an export run — one per skipped
unsupported element, naming it. -/
def exportWarnings (elems : List GridElement) : List String :=
  (elems.filter (fun e => !(supportedClass e.eclass))).map
    (fun e => "element " ++ e.name ++ " is not supported and was skipped")

/-- Modelled from the spec: element ids entering the TopologyCase.  The
switching-state layer covers the supported elements, and additionally an
unsupported element reached through an open switch contributes a
switching-state entry (README "Remarks on export of the TopologyCase":
if an element that cannot be exported is connected to an open switch, the
plausibility check throws "Topology case does not match specified
topology" and the run is terminated). -/
def caseElementIds (elems : List GridElement) : List String :=
  (elems.filter
    (fun e => supportedClass e.eclass || e.behindOpenSwitch)).map
    (fun e => e.name)

/-- Modelled from the spec: one study case's export run over the collected
grid elements: build the Topology ids and warnings, build the TopologyCase
ids, then emit, subject to the plausibility check flag. -/
def exportGrid (elems : List GridElement) (plausibilityCheck : Bool) :
    Except CheckFailure (List String × List String) :=
  match emitCase (topoElementIds elems) (caseElementIds elems)
      plausibilityCheck with
  | .error f => .error f
  | .ok _ => .ok (topoElementIds elems, exportWarnings elems)

/-- The README's scenario: a grid holding a terminal and an `ElmVsc`
converter — a class the exporter does not support — whose tie to the grid
runs through an open switch. -/
def vscBehindOpenSwitchGrid : List GridElement :=
  [⟨"Term_1", .elmTerm, false⟩, ⟨"Vsc_1", .elmVsc, true⟩]

/-! ## Node references of an emitted Topology (C6) -/

/-- A branch record of an emitted topology, reduced to its name and node
references. -/
structure BranchRec where
  name : String
  node_1 : String
  node_2 : String
  deriving DecidableEq, Repr

/-- A transformer record of an emitted topology, reduced to its name and
node references. -/
structure TransformerRec where
  name : String
  node_1 : String
  node_2 : String
  deriving DecidableEq, Repr

/-- A load record of an emitted topology, reduced to its name and node
reference. -/
structure LoadRec where
  name : String
  node : String
  deriving DecidableEq, Repr

/-- The reference graph of an emitted topology document: its node-name set
and the node references held by its branches, transformers and loads. -/
structure TopologyGraph where
  nodes : List String
  branches : List BranchRec
  transformers : List TransformerRec
  loads : List LoadRec
  deriving DecidableEq, Repr

/-- Whether every node reference held by a branch, transformer or load of
the topology resolves to a node present in the topology's own node set. -/
def allNodeRefsResolve (t : TopologyGraph) : Bool :=
  (t.branches.all (fun b =>
      t.nodes.contains b.node_1 && t.nodes.contains b.node_2)) &&
  (t.transformers.all (fun tr =>
      t.nodes.contains tr.node_1 && t.nodes.contains tr.node_2)) &&
  (t.loads.all (fun l => t.nodes.contains l.node))

/-- The reference graph of the emitted example topology
`Industry_Park_MV_2_Bus_topology.json` (second document of the file),
embedded verbatim: two nodes, one line, one load, and the 110/20 kV
boundary transformer whose high-voltage reference `Node_9/Field_3/T3`
names a node of the neighboring 110 kV grid. -/
def industryParkTopology : TopologyGraph :=
  { nodes := ["Industry_Node_1", "Industry_Node_2"]
    branches :=
      [⟨"Industry_Line", "Industry_Node_1", "Industry_Node_2"⟩]
    transformers :=
      [⟨"Industry_Transformer_2w_110/20", "Node_9/Field_3/T3",
        "Industry_Node_1"⟩]
    loads := [⟨"Industry_Load", "Industry_Node_2"⟩] }

/-! ## Unit & Quantity Normalizer session (C7) -/

/-- Project power unit setting. -/
inductive PowerUnit where
  | watt : PowerUnit
  | kilowatt : PowerUnit
  | megawatt : PowerUnit
  deriving DecidableEq, Repr

/-- Project voltage unit setting. -/
inductive VoltageUnit where
  | volt : VoltageUnit
  | kilovolt : VoltageUnit
  deriving DecidableEq, Repr

/-- Project current unit setting. -/
inductive CurrentUnit where
  | ampere : CurrentUnit
  | kiloampere : CurrentUnit
  deriving DecidableEq, Repr

/-- Project length unit setting. -/
inductive LengthUnit where
  | metre : LengthUnit
  | kilometre : LengthUnit
  deriving DecidableEq, Repr

/-- The four project-wide unit settings the normalizer touches. -/
structure UnitSettings where
  power : PowerUnit
  voltage : VoltageUnit
  current : CurrentUnit
  length : LengthUnit
  deriving DecidableEq, Repr

/-- The fixed target convention applied for the duration of a session:
power in MW, voltage in kV, current in kA, length in km (README "General
Unit Conversion"). -/
def targetUnitSettings : UnitSettings :=
  { power := .megawatt, voltage := .kilovolt, current := .kiloampere,
    length := .kilometre }

/-- The host project's state: its unit settings plus everything else
(`projectData`), which normalization must not touch. -/
structure PFProject (α : Type) where
  units : UnitSettings
  projectData : α
  deriving DecidableEq, Repr

/-- Modelled from the spec: switching the project to the fixed target unit
convention.  All four settings are replaced at once — there is no operation
applying only some of them — and no other project field is altered. -/
def applyUnitConvention {α : Type} (p : PFProject α) : PFProject α :=
  { p with units := targetUnitSettings }

/-- Modelled from the spec: an export session.  On session start the
current unit settings are recorded and the target convention is applied;
the body runs on the normalized project and returns its outcome (a result
or an exception) together with the host state it left behind; on session
end — normal or exceptional alike — the recorded original settings are
restored. -/
def runExportSession {α β ε : Type} (p : PFProject α)
    (body : PFProject α → Except ε β × PFProject α) :
    Except ε β × PFProject α :=
  let saved := p.units
  let res := body (applyUnitConvention p)
  (res.1, { res.2 with units := saved })

/-! ## Serialization round trip (C9)

The serialized documents are JSON extended with the bare `NaN` token the
exporter writes for the not-a-number sentinel (visible verbatim in the
bundled steadystate-case document). -/

/-- JSON values as written by the exporter: the standard constructors plus
the bare `NaN` token. -/
inductive Json where
  | null : Json
  | jbool : Bool → Json
  | num : ℚ → Json
  | nan : Json
  | str : String → Json
  | arr : List Json → Json
  | obj : List (String × Json) → Json

/-- Serialization of a pseudo-float: the sentinel becomes the bare `NaN`
token, an ordinary value a JSON number. -/
def FloatVal.toJson : FloatVal → Json
  | .nan => Json.nan
  | .val q => Json.num q

/-- Parsing a pseudo-float back from JSON. -/
def floatValOfJson : Json → Option FloatVal
  | Json.nan => some FloatVal.nan
  | Json.num q => some (FloatVal.val q)
  | _ => none

/-- A node of the neutral schema, reduced to the fields relevant here. -/
structure PsdmNode where
  name : String
  u_n : ℚ
  deriving DecidableEq, Repr

/-- A load of the neutral schema, reduced to its name and its rated power,
which may be the NaN sentinel. -/
structure PsdmLoad where
  name : String
  ratedPower : FloatVal
  deriving DecidableEq, Repr

/-- A topology document of the neutral schema, reduced to its node and
load collections. -/
structure PsdmTopology where
  nodes : List PsdmNode
  loads : List PsdmLoad
  deriving DecidableEq, Repr

/-- Modelled from the spec: serialization of a node record. -/
def nodeToJson (n : PsdmNode) : Json :=
  Json.obj [("name", Json.str n.name), ("u_n", Json.num n.u_n)]

/-- Modelled from the spec: the schema parser for a node record. -/
def nodeOfJson : Json → Option PsdmNode
  | Json.obj [("name", Json.str nm), ("u_n", Json.num q)] => some ⟨nm, q⟩
  | _ => none

/-- Modelled from the spec: serialization of a load record. -/
def loadToJson (l : PsdmLoad) : Json :=
  Json.obj [("name", Json.str l.name),
    ("rated_power", l.ratedPower.toJson)]

/-- Modelled from the spec: the schema parser for a load record. -/
def loadOfJson : Json → Option PsdmLoad
  | Json.obj [("name", Json.str nm), ("rated_power", j)] =>
    match floatValOfJson j with
    | some v => some ⟨nm, v⟩
    | none => none
  | _ => none

/-- Parses a list of node documents, failing on the first ill-formed
entry. -/
def nodesOfJson : List Json → Option (List PsdmNode)
  | [] => some []
  | j :: rest =>
    match nodeOfJson j, nodesOfJson rest with
    | some n, some ns => some (n :: ns)
    | _, _ => none

/-- Parses a list of load documents, failing on the first ill-formed
entry. -/
def loadsOfJson : List Json → Option (List PsdmLoad)
  | [] => some []
  | j :: rest =>
    match loadOfJson j, loadsOfJson rest with
    | some l, some ls => some (l :: ls)
    | _, _ => none

/-- Modelled from the spec: serialization of a topology document. -/
def topologyToJson (t : PsdmTopology) : Json :=
  Json.obj [("nodes", Json.arr (t.nodes.map nodeToJson)),
    ("loads", Json.arr (t.loads.map loadToJson))]

/-- Modelled from the spec: the schema parser for a topology document. -/
def topologyOfJson : Json → Option PsdmTopology
  | Json.obj [("nodes", Json.arr ns), ("loads", Json.arr ls)] =>
    match nodesOfJson ns, loadsOfJson ls with
    | some a, some b => some ⟨a, b⟩
    | _, _ => none
  | _ => none

/-! ## ExternalGrid steadystate representations (C10) -/

/-- An external grid's steadystate record: optional voltage-reference
fields (`u_0`, `phi_0`) and optional power-injection fields (`p_0`,
`q_0`), mirroring the `external_grids` entries of the steadystate-case
document. -/
structure ExternalGridSSC where
  name : String
  u_0 : Option ℚ
  phi_0 : Option ℚ
  p_0 : Option ℚ
  q_0 : Option ℚ
  deriving DecidableEq, Repr

/-- The first `external_grids` entry of the bundled steadystate-case
document, embedded verbatim: the slack grid "ExternalGrid" with voltage
magnitude and angle populated and both power fields null. -/
def externalGridSlack : ExternalGridSSC :=
  { name := "ExternalGrid", u_0 := some 110000, phi_0 := some 0,
    p_0 := none, q_0 := none }

/-- The second `external_grids` entry of the bundled steadystate-case
document, embedded verbatim: "ExternalGrid_2" with the active-power total
9999999.9 W and the voltage magnitude 107800 V populated while the angle
and the reactive power are null. -/
def externalGridPV : ExternalGridSSC :=
  { name := "ExternalGrid_2", u_0 := some 107800, phi_0 := none,
    p_0 := some (99999999 / 10 : ℚ), q_0 := none }

/-- The host's bus-type setting of an external grid: slack (SL), PV, or
PQ. -/
inductive BusType where
  | sl : BusType
  | pv : BusType
  | pq : BusType
  deriving DecidableEq, Repr

/-- Modelled from the spec and the bundled data: which of the four
steadystate fields an external grid of the given bus type populates, as
`(u_0, phi_0, p_0, q_0)` presence flags. -/
def populatedPattern : BusType → Bool × Bool × Bool × Bool
  | .sl => (true, true, false, false)
  | .pv => (true, false, true, false)
  | .pq => (false, false, true, true)

/-- Modelled from the spec and the bundled data: the exported steadystate
record of an external grid, populated according to its bus type from the
candidate setpoints. -/
def mkExternalGridSSC (bt : BusType) (name : String) (u phi p q : ℚ) :
    ExternalGridSSC :=
  match bt with
  | .sl => ⟨name, some u, some phi, none, none⟩
  | .pv => ⟨name, some u, none, some p, none⟩
  | .pq => ⟨name, none, none, some p, some q⟩

end PFTools

namespace PFTools

/-- Claim C1: for every load exported without an explicit load-model
override, the resolved ZIP model is determined solely by the load's
category: general loads resolve to constant impedance, MV loads to constant
power, and LV and partial-LV loads to constant current. -/
theorem resolveLoadModel_default_per_category :
    (∀ cat : LoadCategory, resolveLoadModel cat none = defaultLoadModel cat) ∧
    resolveLoadModel .general none = .constImpedance ∧
    resolveLoadModel .mv none = .constPower ∧
    resolveLoadModel .lv none = .constCurrent ∧
    resolveLoadModel .lvp none = .constCurrent := by
  refine ⟨fun cat => rfl, rfl, rfl, rfl, rfl⟩

/-- Claim C2: for every connected consumer load whose active and reactive
power are both zero, the exported `RatedPower` is the NaN sentinel — not
zero, and the field is not omitted. -/
theorem as_rated_power_zero_setpoint_nan (l : LoadSetpoint)
    (hconn : l.connected = true) (hsys : l.systemType = .consumer)
    (hp : l.activePower = 0) (hq : l.reactivePower = 0) :
    as_rated_power l = some FloatVal.nan ∧
    as_rated_power l ≠ some (FloatVal.val 0) ∧
    as_rated_power l ≠ none := by
  have h : as_rated_power l = some FloatVal.nan := by
    unfold as_rated_power
    rw [if_pos ⟨hp, hq⟩]
  refine ⟨h, ?_, ?_⟩
  · rw [h]; intro hcontra; cases hcontra
  · rw [h]; intro hcontra; cases hcontra

/-- Witness for C2 at a concrete zero-power consumer load. -/
theorem as_rated_power_zero_setpoint_nan_witness :
    as_rated_power ⟨true, .consumer, 0, 0⟩ = some FloatVal.nan ∧
    as_rated_power ⟨true, .consumer, 0, 0⟩ ≠ some (FloatVal.val 0) ∧
    as_rated_power ⟨true, .consumer, 0, 0⟩ ≠ none :=
  as_rated_power_zero_setpoint_nan ⟨true, .consumer, 0, 0⟩ rfl rfl rfl rfl

/-- Claim C3: for every 2-winding transformer, all winding impedance values
in the translator's output are the HV-referred impedance (split between the
two winding objects), and a record specifying the same physical impedance
on the LV side translates to exactly the same output as one specifying it
on the HV side: the output is independent of the specification side. -/
theorem translate2w_refers_to_hv (uHV uLV r x : ℚ) :
    (∀ s : Transformer2wSource,
      translate2w s = ⟨referToHV s s.rSpec / 2, referToHV s s.xSpec / 2,
        referToHV s s.rSpec / 2, referToHV s s.xSpec / 2⟩) ∧
    translate2w ⟨uHV, uLV, .lv, r, x⟩ =
      translate2w
        ⟨uHV, uLV, .hv, r * (uHV / uLV) ^ 2, x * (uHV / uLV) ^ 2⟩ := by
  exact ⟨fun s => rfl, rfl⟩

/-- Claim C4: the zero-sequence magnetizing reactance is a function of the
transformer's vector group through the fixed per-family lookup alone (two
transformers whose vector groups fall in the same family and that share the
positive-sequence magnetizing reactance get the same zero-sequence value),
and when the source element carries no earthing data the exported
zero-sequence earthing impedance fields are null — in particular not
zero. -/
theorem zeroSeq_lookup_and_null_earthing :
    (∀ t₁ t₂ : TransformerZeroSeqSource,
      familyOf t₁.primaryVG = familyOf t₂.primaryVG → t₁.x_h1 = t₂.x_h1 →
      compute_x_h0 t₁ = compute_x_h0 t₂) ∧
    (∀ t : TransformerZeroSeqSource, t.earthing = none →
      earthingExport t = (none, none) ∧
      earthingExport t ≠ (some 0, some 0)) := by
  constructor
  · intro t₁ t₂ hfam hx
    unfold compute_x_h0
    rw [hfam, hx]
  · intro t hnone
    have h : earthingExport t = (none, none) := by
      unfold earthingExport
      rw [hnone]
    refine ⟨h, ?_⟩
    rw [h]
    intro hcontra
    cases hcontra

/-- Witness for C4: two concrete transformers with vector groups `YN` in
the same family and equal positive-sequence magnetizing reactance yield the
same zero-sequence value, and a transformer without earthing data exports
null earthing fields. -/
theorem zeroSeq_lookup_and_null_earthing_witness :
    compute_x_h0 ⟨.yn, 30300, none⟩ = compute_x_h0 ⟨.yn, 30300, some ⟨0, 0⟩⟩ ∧
    earthingExport ⟨.y, 30300, none⟩ = (none, none) :=
  ⟨zeroSeq_lookup_and_null_earthing.1 ⟨.yn, 30300, none⟩
      ⟨.yn, 30300, some ⟨0, 0⟩⟩ rfl rfl,
    (zeroSeq_lookup_and_null_earthing.2 ⟨.y, 30300, none⟩ rfl).1⟩

/-- Helper: `find?` over a concatenation whose left part falsifies the
predicate and whose middle element satisfies it returns that element. -/
theorem find?_middle {α : Type} (p : α → Bool) (m : α) (pre post : List α)
    (hpre : ∀ e ∈ pre, p e = false) (hm : p m = true) :
    (pre ++ m :: post).find? p = some m := by
  induction pre with
  | nil => simpa using List.find?_cons_of_pos post hm
  | cons a as ih =>
    have ha : ¬ p a = true := by
      simp [hpre a (List.mem_cons_self a as)]
    have := ih (fun e he => hpre e (List.mem_cons_of_mem a he))
    simpa [List.find?_cons_of_neg _ ha] using this

/-- Helper: an element of the list never makes `!contains` fire, hence the
plausibility check of a case against itself succeeds. -/
theorem check_self (l : List String) : check l l = .ok () := by
  have h : l.find? (fun e => !(l.contains e)) = none := by
    apply List.find?_eq_none.mpr
    intro a ha
    simpa using ha
  unfold check
  rw [h]

/-- Claim C5: for a Topology whose elements are `pre ++ m :: post` paired
with a TopologyCase covering only `pre ++ post` (the element `m` missing),
`check` returns a `CheckFailure` whose message names `m`; emission with the
default plausibility setting fails with that failure, and only the explicit
opt-out (`plausibility_check` off) at the export call proceeds past it. -/
theorem check_missing_element_failure (pre post : List String) (m : String)
    (hpre : m ∉ pre) (hpost : m ∉ post) :
    check (pre ++ m :: post) (pre ++ post) = .error (mkCheckFailure m) ∧
    (∃ s₁ s₂ : String, (mkCheckFailure m).message = s₁ ++ m ++ s₂) ∧
    emitCase (pre ++ m :: post) (pre ++ post) defaultPlausibilityCheck =
      .error (mkCheckFailure m) ∧
    emitCase (pre ++ m :: post) (pre ++ post) false =
      .ok (pre ++ m :: post, pre ++ post) := by
  have hfind : (pre ++ m :: post).find?
      (fun e => !((pre ++ post).contains e)) = some m := by
    apply find?_middle
    · intro e he
      simp
      intro hne
      exact absurd he hne
    · simp
      exact ⟨hpre, hpost⟩
  have hcheck : check (pre ++ m :: post) (pre ++ post) =
      .error (mkCheckFailure m) := by
    unfold check
    rw [hfind]
  refine ⟨hcheck, ⟨"Topology case does not match specified topology: element ",
    " is not covered", rfl⟩, ?_, ?_⟩
  · unfold emitCase defaultPlausibilityCheck
    rw [if_pos rfl, hcheck]
  · rfl

/-- Witness for C5 on a concrete two-element Topology whose case misses the
transformer. -/
theorem check_missing_element_failure_witness :
    check (["Industry_Node_1"] ++ "Industry_Transformer" :: [])
        (["Industry_Node_1"] ++ []) =
      .error (mkCheckFailure "Industry_Transformer") ∧
    (∃ s₁ s₂ : String, (mkCheckFailure "Industry_Transformer").message =
      s₁ ++ "Industry_Transformer" ++ s₂) ∧
    emitCase (["Industry_Node_1"] ++ "Industry_Transformer" :: [])
        (["Industry_Node_1"] ++ []) defaultPlausibilityCheck =
      .error (mkCheckFailure "Industry_Transformer") ∧
    emitCase (["Industry_Node_1"] ++ "Industry_Transformer" :: [])
        (["Industry_Node_1"] ++ []) false =
      .ok (["Industry_Node_1"] ++ "Industry_Transformer" :: [],
        ["Industry_Node_1"] ++ []) :=
  check_missing_element_failure ["Industry_Node_1"] []
    "Industry_Transformer" (by decide) (by decide)

/-- Counterexample to claim C8 as stated: encountering an unsupported
element is NOT "never fatal regardless of how the element is connected" —
in the grid holding the unsupported `ElmVsc` behind an open switch, the
export run under the default settings terminates with the plausibility
failure "Topology case does not match specified topology" instead of
completing, exactly as the README's remarks on the TopologyCase state. -/
theorem exportGrid_vsc_open_switch_fatal :
    exportGrid vscBehindOpenSwitchGrid defaultPlausibilityCheck =
      .error (mkCheckFailure "Vsc_1") ∧
    supportedClass ElementClass.elmVsc = false ∧
    "Vsc_1" ∉ topoElementIds vscBehindOpenSwitchGrid := by
  refine ⟨rfl, rfl, by decide⟩

/-- Claim C8 (amended): an unsupported element is logged as a warning and
skipped from the Topology, and the export run completes — provided no
unsupported element hangs off an open switch (in that case the default
plausibility check terminates the run, avoidable only by the explicit
opt-out, under which the run always completes). -/
theorem exportGrid_unsupported_warned_skipped :
    (∀ elems : List GridElement,
      (∀ e ∈ elems, supportedClass e.eclass = false →
        e.behindOpenSwitch = false) →
      exportGrid elems defaultPlausibilityCheck =
        .ok (topoElementIds elems, exportWarnings elems)) ∧
    (∀ elems : List GridElement,
      exportGrid elems false =
        .ok (topoElementIds elems, exportWarnings elems)) ∧
    (∀ elems : List GridElement, ∀ e ∈ elems,
      supportedClass e.eclass = false →
      ("element " ++ e.name ++ " is not supported and was skipped") ∈
        exportWarnings elems) := by
  refine ⟨?_, ?_, ?_⟩
  · intro elems h
    have hcase : caseElementIds elems = topoElementIds elems := by
      unfold caseElementIds topoElementIds
      congr 1
      apply List.filter_congr
      intro x hx
      cases hsup : supportedClass x.eclass with
      | true => simp [hsup]
      | false => simp [hsup, h x hx hsup]
    unfold exportGrid
    rw [hcase]
    unfold emitCase defaultPlausibilityCheck
    rw [if_pos rfl, check_self]
  · intro elems
    rfl
  · intro elems e he hsup
    unfold exportWarnings
    apply List.mem_map.mpr
    refine ⟨e, ?_, rfl⟩
    apply List.mem_filter.mpr
    exact ⟨he, by simp [hsup]⟩

/-- Witness for the amended C8 on a grid whose unsupported `ElmVsc` is not
behind an open switch: the run completes, the element is skipped and
warned about. -/
theorem exportGrid_unsupported_warned_skipped_witness :
    exportGrid [⟨"Term_1", .elmTerm, false⟩, ⟨"Vsc_2", .elmVsc, false⟩]
        defaultPlausibilityCheck =
      .ok (topoElementIds
          [⟨"Term_1", .elmTerm, false⟩, ⟨"Vsc_2", .elmVsc, false⟩],
        exportWarnings
          [⟨"Term_1", .elmTerm, false⟩, ⟨"Vsc_2", .elmVsc, false⟩]) ∧
    ("element " ++ "Vsc_2" ++ " is not supported and was skipped") ∈
      exportWarnings
        [⟨"Term_1", .elmTerm, false⟩, ⟨"Vsc_2", .elmVsc, false⟩] :=
  ⟨exportGrid_unsupported_warned_skipped.1
      [⟨"Term_1", .elmTerm, false⟩, ⟨"Vsc_2", .elmVsc, false⟩]
      (by decide),
    exportGrid_unsupported_warned_skipped.2.2
      [⟨"Term_1", .elmTerm, false⟩, ⟨"Vsc_2", .elmVsc, false⟩]
      ⟨"Vsc_2", .elmVsc, false⟩ (by decide) rfl⟩

/-- Counterexample to claim C6 as stated: the repository's own emitted
topology `Industry_Park_MV_2_Bus_topology.json` holds a transformer whose
high-voltage node reference `Node_9/Field_3/T3` is absent from the
topology's node set, yet the topology was emitted — assembly did not fail
with a `CompositionError`. -/
theorem industryPark_unresolved_node_ref :
    allNodeRefsResolve industryParkTopology = false ∧
    (∃ tr ∈ industryParkTopology.transformers,
      tr.node_1 = "Node_9/Field_3/T3" ∧
      tr.node_1 ∉ industryParkTopology.nodes) := by
  refine ⟨rfl, ⟨"Industry_Transformer_2w_110/20", "Node_9/Field_3/T3",
    "Industry_Node_1"⟩, by decide, rfl, by decide⟩

/-- Claim C6 (amended): in the emitted topology every node reference held
by a branch or a load resolves within the topology's node set, and so does
the in-grid side of the transformer; only the boundary transformer's
far-side reference (into the neighboring grid) is absent from the node
set, and the topology is emitted regardless. -/
theorem industryPark_inGrid_refs_resolve :
    (industryParkTopology.branches.all (fun b =>
        industryParkTopology.nodes.contains b.node_1 &&
        industryParkTopology.nodes.contains b.node_2)) = true ∧
    (industryParkTopology.loads.all (fun l =>
        industryParkTopology.nodes.contains l.node)) = true ∧
    (industryParkTopology.transformers.all (fun tr =>
        industryParkTopology.nodes.contains tr.node_2)) = true ∧
    (industryParkTopology.transformers.all (fun tr =>
        industryParkTopology.nodes.contains tr.node_1)) = false := by
  refine ⟨rfl, rfl, rfl, rfl⟩

/-- Claim C7: the Unit Normalizer applies the full fixed target convention
exactly once at session start (the body sees a project whose unit settings
equal the target convention, with no other project field altered), and at
session end the original unit settings are restored exactly — for every
body, hence also for a body that ends in an exception; the body's outcome
is passed through unchanged. -/
theorem runExportSession_unit_contract {α β ε : Type} (p : PFProject α)
    (body : PFProject α → Except ε β × PFProject α) :
    (runExportSession p body).2.units = p.units ∧
    (applyUnitConvention p).units = targetUnitSettings ∧
    (applyUnitConvention p).projectData = p.projectData ∧
    (runExportSession p body).1 = (body (applyUnitConvention p)).1 ∧
    (∀ e : ε, (body (applyUnitConvention p)).1 = .error e →
      (runExportSession p body).2.units = p.units) := by
  exact ⟨rfl, rfl, rfl, rfl, fun e _ => rfl⟩

/-- Witness for C7: a session over a concrete project with (W, V, A, m)
settings whose body raises an exception still restores the original unit
settings and passes the exception through. -/
theorem runExportSession_unit_contract_witness :
    (runExportSession
        (⟨⟨.watt, .volt, .ampere, .metre⟩, 0⟩ : PFProject ℕ)
        (fun q => ((Except.error () : Except Unit Unit), q))).2.units =
      ⟨.watt, .volt, .ampere, .metre⟩ ∧
    (runExportSession
        (⟨⟨.watt, .volt, .ampere, .metre⟩, 0⟩ : PFProject ℕ)
        (fun q => ((Except.error () : Except Unit Unit), q))).1 =
      .error () :=
  ⟨(runExportSession_unit_contract
      (⟨⟨.watt, .volt, .ampere, .metre⟩, 0⟩ : PFProject ℕ)
      (fun q => ((Except.error () : Except Unit Unit), q))).2.2.2.2 () rfl,
    (runExportSession_unit_contract
      (⟨⟨.watt, .volt, .ampere, .metre⟩, 0⟩ : PFProject ℕ)
      (fun q => ((Except.error () : Except Unit Unit), q))).2.2.2.1⟩

/-- Helper: a pseudo-float survives the serialize/parse round trip,
including the NaN sentinel. -/
theorem floatVal_roundtrip (v : FloatVal) :
    floatValOfJson v.toJson = some v := by
  cases v <;> rfl

/-- Helper: a node record survives the serialize/parse round trip. -/
theorem node_roundtrip (n : PsdmNode) :
    nodeOfJson (nodeToJson n) = some n := by
  rfl

/-- Helper: a load record survives the serialize/parse round trip. -/
theorem load_roundtrip (l : PsdmLoad) :
    loadOfJson (loadToJson l) = some l := by
  cases l with
  | mk nm rp => cases rp <;> rfl

/-- Helper: a list of node records survives the round trip. -/
theorem nodes_roundtrip (ns : List PsdmNode) :
    nodesOfJson (ns.map nodeToJson) = some ns := by
  induction ns with
  | nil => rfl
  | cons n rest ih => simp [nodesOfJson, node_roundtrip, ih]

/-- Helper: a list of load records survives the round trip. -/
theorem loads_roundtrip (ls : List PsdmLoad) :
    loadsOfJson (ls.map loadToJson) = some ls := by
  induction ls with
  | nil => rfl
  | cons l rest ih => simp [loadsOfJson, load_roundtrip, ih]

/-- Claim C9: serializing a topology document and re-importing it through
the schema's parser yields the original structure (serialize followed by
deserialize is the identity up to structure), for every topology — in
particular for one whose load's rated power is the NaN sentinel. -/
theorem topology_roundtrip (t : PsdmTopology) :
    topologyOfJson (topologyToJson t) = some t ∧
    topologyOfJson (topologyToJson ⟨[], [⟨"LV_Load", FloatVal.nan⟩]⟩) =
      some ⟨[], [⟨"LV_Load", FloatVal.nan⟩]⟩ := by
  constructor
  · cases t with
    | mk ns ls =>
      simp [topologyToJson, topologyOfJson, nodes_roundtrip,
        loads_roundtrip]
  · rfl

/-- Counterexample to claim C10 as stated: the bundled steadystate-case
document's second external grid populates the active-power injection field
`p_0` and the voltage-magnitude field `u_0` simultaneously — fields of
both representations on one instance — so "exactly one of the two
representations is populated" fails on the repository's own exported
data. -/
theorem externalGrid2_spans_both_representations :
    externalGridPV.u_0.isSome = true ∧
    externalGridPV.p_0.isSome = true ∧
    externalGridPV.phi_0 = none ∧
    externalGridPV.q_0 = none :=
  ⟨rfl, rfl, rfl, rfl⟩

/-- Claim C10 (amended): the populated steadystate fields of an exported
external grid are determined by the host's bus type — slack populates
voltage magnitude and angle, PV populates active power and voltage
magnitude, PQ populates active and reactive power — the remaining fields
are null, no bus type populates the angle and the reactive power together
(so no instance carries both representations in full), and the two bundled
instances realize the slack and the PV pattern. -/
theorem externalGrid_pattern_per_bus_type :
    (∀ (bt : BusType) (name : String) (u phi p q : ℚ),
      ((mkExternalGridSSC bt name u phi p q).u_0.isSome,
        (mkExternalGridSSC bt name u phi p q).phi_0.isSome,
        (mkExternalGridSSC bt name u phi p q).p_0.isSome,
        (mkExternalGridSSC bt name u phi p q).q_0.isSome) =
        populatedPattern bt) ∧
    (∀ (bt : BusType) (name : String) (u phi p q : ℚ),
      ¬((mkExternalGridSSC bt name u phi p q).phi_0.isSome = true ∧
        (mkExternalGridSSC bt name u phi p q).q_0.isSome = true)) ∧
    externalGridSlack = mkExternalGridSSC .sl "ExternalGrid" 110000 0 0 0 ∧
    externalGridPV =
      mkExternalGridSSC .pv "ExternalGrid_2" 107800 0 (99999999 / 10) 0 := by
  refine ⟨?_, ?_, rfl, rfl⟩
  · intro bt name u phi p q
    cases bt <;> rfl
  · intro bt name u phi p q
    cases bt <;> simp [mkExternalGridSSC]

/-- Witness for the amended C10 at the PV bus type with the bundled
instance's setpoints. -/
theorem externalGrid_pattern_per_bus_type_witness :
    ((mkExternalGridSSC .pv "ExternalGrid_2" 107800 0 (99999999 / 10)
        0).u_0.isSome,
      (mkExternalGridSSC .pv "ExternalGrid_2" 107800 0 (99999999 / 10)
        0).phi_0.isSome,
      (mkExternalGridSSC .pv "ExternalGrid_2" 107800 0 (99999999 / 10)
        0).p_0.isSome,
      (mkExternalGridSSC .pv "ExternalGrid_2" 107800 0 (99999999 / 10)
        0).q_0.isSome) = populatedPattern .pv ∧
    ¬((mkExternalGridSSC .pv "ExternalGrid_2" 107800 0 (99999999 / 10)
        0).phi_0.isSome = true ∧
      (mkExternalGridSSC .pv "ExternalGrid_2" 107800 0 (99999999 / 10)
        0).q_0.isSome = true) :=
  ⟨externalGrid_pattern_per_bus_type.1 .pv "ExternalGrid_2" 107800 0
      (99999999 / 10) 0,
    externalGrid_pattern_per_bus_type.2.1 .pv "ExternalGrid_2" 107800 0
      (99999999 / 10) 0⟩

end PFTools
